import Mathlib

/-!
Shallow embedding of the distributed authorization subsystem of
`app/core/authorization.py` (bucket validation, auth-api client, circuit
breaker, authorization cache, orchestrator) together with the relevant
configuration defaults of `app/core/config.py`.

Modelling conventions:
* Python `str` is Lean `String`; `Optional[str]` is `Option String`.
* `datetime` instants are modelled as natural numbers (seconds); the ISO
  rendering stored in redis is a bijective encoding of the instant, so the
  redis value at the `opened_at` key is modelled by the instant itself.
* The redis integer counter maintained by `INCR` at the failures key is
  modelled as an `Option Nat` (`none` = key absent, `INCR` of an absent key
  yields 1, as in redis).
* Raised exceptions are modelled with `Except`.  `HTTPException` keeps its
  status code and detail string.  Operations against the redis backing
  store are passed in as functions returning `Except String _`, mirroring
  the injected redis client: a reliable client always returns `.ok`, and a
  client whose connection fails returns `.error` (the raised redis error).
-/

namespace AuthZ

/-- Embeds `fastapi.HTTPException`: status code and detail string. -/
structure HTTPException where
  statusCode : Nat
  detail : String
  deriving Repr, DecidableEq

/-- Embeds `BucketType = Literal["group", "user", "system"]`. -/
inductive BucketType where
  | group
  | user
  | system
  deriving Repr, DecidableEq

/-- Embeds the `BucketInfo` dataclass: parsed bucket information. -/
structure BucketInfo where
  bucketType : BucketType
  orgId : Option String
  resourceId : Option String
  originalBucket : String
  deriving Repr, DecidableEq

/-- Embeds the `AuthContext` dataclass: authentication context from the JWT token.
Python types `org_id` as `str` but call sites may pass `None`, and the code
guards with `is not None`; hence `Option String`. -/
structure AuthContext where
  userId : String
  orgId : Option String
  permissions : List String
  deriving Repr, DecidableEq

/-- The configuration fields of `Settings` (config.py) that the
authorization module reads, plus `AUTH_FAIL_OPEN` (declared at
config.py:99 and logged/exposed elsewhere). -/
structure Settings where
  bucketValidationStrict : Bool
  authCacheEnabled : Bool
  authCacheTtlAllowed : Nat
  authCacheTtlDenied : Nat
  circuitBreakerEnabled : Bool
  circuitBreakerThreshold : Nat
  circuitBreakerTimeout : Nat
  authFailOpen : Bool
  deriving Repr, DecidableEq

/-- The defaults of config.py: `BUCKET_VALIDATION_STRICT=True`,
`AUTH_CACHE_ENABLED=True`, `AUTH_CACHE_TTL_ALLOWED=60`,
`AUTH_CACHE_TTL_DENIED=120`, `CIRCUIT_BREAKER_ENABLED=True`,
`CIRCUIT_BREAKER_THRESHOLD=5`, `CIRCUIT_BREAKER_TIMEOUT=60`,
`AUTH_FAIL_OPEN=False`. -/
def defaultSettings : Settings :=
  { bucketValidationStrict := true
    authCacheEnabled := true
    authCacheTtlAllowed := 60
    authCacheTtlDenied := 120
    circuitBreakerEnabled := true
    circuitBreakerThreshold := 5
    circuitBreakerTimeout := 60
    authFailOpen := false }

/-! ## BucketValidator

The six anchored regular expressions of `BucketValidator` use the character
class `[a-zA-Z0-9\-_]` for every captured segment; `/` is not in the class,
so greedy longest-run matching is equivalent to the regex semantics. -/

/-- Membership in the regex character class `[a-zA-Z0-9\-_]`. -/
def isSegChar (c : Char) : Bool :=
  (('a' ≤ c && c ≤ 'z') || ('A' ≤ c && c ≤ 'Z') || ('0' ≤ c && c ≤ '9')
    || c = '-' || c = '_')

/-- Strip a literal prefix from a character list, returning the remainder
when the prefix is present. -/
def dropPre : List Char → List Char → Option (List Char)
  | [], s => some s
  | _ :: _, [] => none
  | p :: ps, c :: cs => if p = c then dropPre ps cs else none

/-- The regex tail `/?$` under Python semantics: `$` (without
`re.MULTILINE`) matches at the end of the string or just before one
trailing newline, so after the optional `/` the remainder may be empty, a
single `/`, a single newline, or `/` followed by a newline. -/
def optSlashEnd (s : List Char) : Bool :=
  s = [] || s = ['/'] || s = ['\n'] || s = ['/', '\n']

/-- Match `pre` followed by a nonempty run of segment characters,
returning the segment and the remainder. -/
def matchSeg (pre : String) (s : List Char) : Option (List Char × List Char) :=
  match dropPre pre.data s with
  | none => none
  | some r =>
    let a := r.takeWhile isSegChar
    if a = [] then none else some (a, r.dropWhile isSegChar)

/-- Regex `GROUP_PATTERN = ^org-([a-zA-Z0-9\-_]+)/groups/([a-zA-Z0-9\-_]+)/?$`;
returns the two captures. -/
def matchGroupOrg (s : List Char) : Option (String × String) :=
  match matchSeg "org-" s with
  | none => none
  | some (a, r1) =>
    match matchSeg "/groups/" r1 with
    | none => none
    | some (b, r2) =>
      if optSlashEnd r2 then some (a.asString, b.asString) else none

/-- Regex `USER_PATTERN = ^org-([a-zA-Z0-9\-_]+)/users/([a-zA-Z0-9\-_]+)/?$`. -/
def matchUserOrg (s : List Char) : Option (String × String) :=
  match matchSeg "org-" s with
  | none => none
  | some (a, r1) =>
    match matchSeg "/users/" r1 with
    | none => none
    | some (b, r2) =>
      if optSlashEnd r2 then some (a.asString, b.asString) else none

/-- Regex `SYSTEM_PATTERN = ^org-([a-zA-Z0-9\-_]+)/system/?$`. -/
def matchSystemOrg (s : List Char) : Option String :=
  match matchSeg "org-" s with
  | none => none
  | some (a, r1) =>
    match dropPre "/system".data r1 with
    | none => none
    | some r2 => if optSlashEnd r2 then some a.asString else none

/-- Regex `GROUP_PATTERN_SIMPLE = ^groups/([a-zA-Z0-9\-_]+)/?$`. -/
def matchGroupSimple (s : List Char) : Option String :=
  match matchSeg "groups/" s with
  | none => none
  | some (b, r) => if optSlashEnd r then some b.asString else none

/-- Regex `USER_PATTERN_SIMPLE = ^users/([a-zA-Z0-9\-_]+)/?$`. -/
def matchUserSimple (s : List Char) : Option String :=
  match matchSeg "users/" s with
  | none => none
  | some (b, r) => if optSlashEnd r then some b.asString else none

/-- Regex `SYSTEM_PATTERN_SIMPLE = ^system/?$`. -/
def matchSystemSimple (s : List Char) : Bool :=
  match dropPre "system".data s with
  | none => false
  | some r => optSlashEnd r

/-- The 400 error raised for an empty (falsy) bucket argument. -/
def emptyBucketError : HTTPException :=
  ⟨400, "Bucket must be a non-empty string"⟩

/-- The 400 error raised in strict mode for an unrecognized bucket. -/
def invalidFormatError : HTTPException :=
  ⟨400, "Invalid bucket format. Expected: org-{org_id}/groups/{group_id}/, org-{org_id}/users/{user_id}/, org-{org_id}/system/, groups/{group_id}/, users/{user_id}/, or system/"⟩

/-- Embeds `BucketValidator.parse`: try the six patterns in order, first match
wins; otherwise raise 400 in strict mode or fall back to the
`system`/`"default-org"` descriptor.  An empty bucket raises 400 before
any pattern is tried. -/
def BucketValidator.parse (s : Settings) (bucket : String) :
    Except HTTPException BucketInfo :=
  if bucket = "" then .error emptyBucketError
  else
    match matchGroupOrg bucket.data with
    | some (org, gid) => .ok ⟨.group, some org, some gid, bucket⟩
    | none =>
      match matchUserOrg bucket.data with
      | some (org, uid) => .ok ⟨.user, some org, some uid, bucket⟩
      | none =>
        match matchSystemOrg bucket.data with
        | some org => .ok ⟨.system, some org, none, bucket⟩
        | none =>
          match matchGroupSimple bucket.data with
          | some gid => .ok ⟨.group, none, some gid, bucket⟩
          | none =>
            match matchUserSimple bucket.data with
            | some uid => .ok ⟨.user, none, some uid, bucket⟩
            | none =>
              if matchSystemSimple bucket.data then
                .ok ⟨.system, none, none, bucket⟩
              else if s.bucketValidationStrict then .error invalidFormatError
              else .ok ⟨.system, some "default-org", none, bucket⟩

/-! ## Authorization cache

`AuthorizationCache` wraps an injected redis client.  The two redis
operations it performs (`get key`, `setex key ttl value`) are passed in as
functions returning `Except String _` so that both a reliable client and a
client whose connection raises can be instantiated.  The source contains
no try/except around these calls. -/

/-- Embeds `AuthorizationCache._make_key`:
`f"auth:permission:{org_id}:{user_id}:{permission}"`. -/
def makeKey (orgId userId permission : String) : String :=
  "auth:permission:" ++ orgId ++ ":" ++ userId ++ ":" ++ permission

/-- Embeds `AuthorizationCache.get`: `None` when disabled; otherwise read the key
and interpret the value (`b"1"` means allowed).  A raised redis error
propagates (there is no exception handler in the source). -/
def cacheGet (s : Settings) (redisGet : String → Except String (Option String))
    (orgId userId permission : String) : Except String (Option Bool) :=
  if !s.authCacheEnabled then .ok none
  else
    match redisGet (makeKey orgId userId permission) with
    | .error e => .error e
    | .ok none => .ok none
    | .ok (some v) => .ok (some (v = "1"))

/-- Embeds `AuthorizationCache.set`: no-op when disabled; otherwise
`setex key ttl value` with `value = "1"/"0"` and
`ttl = ttl_allowed if allowed else ttl_denied`.  A raised redis error
propagates. -/
def cacheSet {σ : Type} (s : Settings)
    (redisSetex : String → Nat → String → Except String σ) (unchanged : σ)
    (orgId userId permission : String) (allowed : Bool) : Except String σ :=
  if !s.authCacheEnabled then .ok unchanged
  else
    let key := makeKey orgId userId permission
    let value := if allowed then "1" else "0"
    let ttl := if allowed then s.authCacheTtlAllowed else s.authCacheTtlDenied
    redisSetex key ttl value

/-! ## Auth API client -/

/-- The transport-level outcome of the one outbound HTTP POST performed by
`AuthAPIClient.check_permission`: a response with some status code, an
`httpx.TimeoutException`, or an `httpx.RequestError`. -/
inductive HttpOutcome where
  | status (code : Nat)
  | timeout
  | connectError
  deriving Repr, DecidableEq

/-- Embeds `AuthAPIClient.check_permission`: 200 → `True`, 403 → `False`, any
other status → raise 503 "Authorization service unavailable"; timeout →
503 "Authorization service timeout"; request error → 503 "Authorization
service unreachable". -/
def checkPermission (outcome : HttpOutcome) : Except HTTPException Bool :=
  match outcome with
  | .status code =>
    if code = 200 then .ok true
    else if code = 403 then .ok false
    else .error ⟨503, "Authorization service unavailable"⟩
  | .timeout => .error ⟨503, "Authorization service timeout"⟩
  | .connectError => .error ⟨503, "Authorization service unreachable"⟩

/-! ## Circuit breaker

`CircuitBreaker` persists three redis keys: `auth:circuit_breaker:state`
(the bytes `b"OPEN"` when open, absent otherwise),
`auth:circuit_breaker:failures` (an `INCR`-maintained integer) and
`auth:circuit_breaker:opened_at` (an ISO timestamp).  Together with the
cache key space (all keys have the distinct prefix `auth:permission:`)
this is the whole redis state the module touches. -/

/-- A value stored by `SETEX`: the string value and the TTL it was stored
with. -/
structure CacheEntry where
  value : String
  ttl : Nat
  deriving Repr, DecidableEq

/-- The redis database as seen by this module: the `auth:permission:*`
key space written by `SETEX`, plus the three fixed circuit-breaker keys
(whose names share no prefix with the cache keys, so they are modelled as
separate fields). -/
structure RedisDb where
  kv : String → Option CacheEntry
  cbState : Option String
  cbFailures : Option Nat
  cbOpenedAt : Option Nat

/-- A redis database with nothing stored. -/
def emptyDb : RedisDb :=
  { kv := fun _ => none, cbState := none, cbFailures := none, cbOpenedAt := none }

/-- Models the `redis.get` operation of a reliable client over `RedisDb`,
restricted to the cache key space. -/
def dbGet (db : RedisDb) : String → Except String (Option String) :=
  fun k => .ok ((db.kv k).map CacheEntry.value)

/-- Models the `redis.setex` operation of a reliable client over `RedisDb`. -/
def dbSetex (db : RedisDb) : String → Nat → String → Except String RedisDb :=
  fun k t v =>
    .ok { db with kv := fun k2 => if k2 = k then some ⟨v, t⟩ else db.kv k2 }

/-- Embeds `CircuitBreaker.reset`: delete all three keys. -/
def cbReset (db : RedisDb) : RedisDb :=
  { db with cbState := none, cbFailures := none, cbOpenedAt := none }

/-- Embeds `CircuitBreaker.is_open` at instant `now`: `False` when disabled or the
state key is not `b"OPEN"`; when open with a stored `opened_at`, an elapsed
time strictly greater than the configured timeout deletes the breaker keys
(`reset`) and reports not-open.  Returns the answer and the possibly
updated database. -/
def cbIsOpen (s : Settings) (now : Nat) (db : RedisDb) : Bool × RedisDb :=
  if !s.circuitBreakerEnabled then (false, db)
  else if db.cbState ≠ some "OPEN" then (false, db)
  else
    match db.cbOpenedAt with
    | some t =>
      if t + s.circuitBreakerTimeout < now then (false, cbReset db)
      else (true, db)
    | none => (true, db)

/-- Embeds `CircuitBreaker.record_success`: delete the failures key (no other key
is touched). -/
def cbRecordSuccess (s : Settings) (db : RedisDb) : RedisDb :=
  if !s.circuitBreakerEnabled then db
  else { db with cbFailures := none }

/-- Embeds `CircuitBreaker.open`: set the state key to `b"OPEN"` and stamp
`opened_at = now`. -/
def cbOpen (now : Nat) (db : RedisDb) : RedisDb :=
  { db with cbState := some "OPEN", cbOpenedAt := some now }

/-- Embeds `CircuitBreaker.record_failure`: `INCR` the failures key (absent
counts as 0) and open the breaker when the new count reaches the
threshold. -/
def cbRecordFailure (s : Settings) (now : Nat) (db : RedisDb) : RedisDb :=
  if !s.circuitBreakerEnabled then db
  else
    let failures := db.cbFailures.getD 0 + 1
    let db1 := { db with cbFailures := some failures }
    if s.circuitBreakerThreshold ≤ failures then cbOpen now db1 else db1

/-- A raised exception as seen by a caller of the authorization service:
either an `HTTPException` or a propagated redis client error. -/
inductive PyErr where
  | http (e : HTTPException)
  | redisErr (msg : String)
  deriving Repr, DecidableEq

/-- Embeds `CircuitBreaker.execute`: raise 503 when `is_open()`; otherwise run the
call, record a success on a normal return, record a failure for a raised
`HTTPException` with a 5xx status (others are re-raised without recording).
The source's final `except Exception` arm is unreachable here because the
modelled call raises only `HTTPException`. -/
def cbExecute (s : Settings) (now : Nat) (call : Except HTTPException Bool)
    (db : RedisDb) : Except PyErr Bool × RedisDb :=
  match cbIsOpen s now db with
  | (true, db0) =>
    (.error (.http ⟨503, "Authorization service temporarily unavailable"⟩), db0)
  | (false, db0) =>
    match call with
    | .ok result => (.ok result, cbRecordSuccess s db0)
    | .error e =>
      if 500 ≤ e.statusCode then (.error (.http e), cbRecordFailure s now db0)
      else (.error (.http e), db0)

/-! ## Authorization service (orchestrator) -/

/-- Python f-string coercion of an `Optional[str]`: `None` renders as
`"None"`.  The orchestrator passes `auth_context.org_id` (typed
`Optional`) into the cache and the client. -/
def optStr (o : Option String) : String :=
  o.getD "None"

/-- Embeds `AuthorizationService._build_permission`: scope the base permission by
bucket type (`:group:{id}`, `:user:{id}`, `:system`). -/
def buildPermission (basePermission : String) (info : BucketInfo) : String :=
  match info.bucketType with
  | .group => basePermission ++ ":group:" ++ optStr info.resourceId
  | .user => basePermission ++ ":user:" ++ optStr info.resourceId
  | .system => basePermission ++ ":system"

/-- Embeds `AuthorizationService._check_group_permission`: cache read (a cached
denial raises 403 "Permission denied (cached)", a cached grant returns
`True`); on a miss, the auth-api call runs under the circuit breaker, the
result is cached, and a denial raises 403 "Permission denied". -/
def checkGroupPermission (s : Settings) (now : Nat) (authority : HttpOutcome)
    (ctx : AuthContext) (permission : String) (db : RedisDb) :
    Except PyErr Bool × RedisDb :=
  match cacheGet s (dbGet db) (optStr ctx.orgId) ctx.userId permission with
  | .error msg => (.error (.redisErr msg), db)
  | .ok (some cached) =>
    if !cached then (.error (.http ⟨403, "Permission denied (cached)"⟩), db)
    else (.ok true, db)
  | .ok none =>
    match cbExecute s now (checkPermission authority) db with
    | (.error e, db1) => (.error e, db1)
    | (.ok allowed, db1) =>
      match cacheSet s (dbSetex db1) db1 (optStr ctx.orgId) ctx.userId
          permission allowed with
      | .error msg => (.error (.redisErr msg), db1)
      | .ok db2 =>
        if !allowed then (.error (.http ⟨403, "Permission denied"⟩), db2)
        else (.ok true, db2)

/-- The branch of `check_access` that follows the org-mismatch check:
build the scoped permission, grant or deny user buckets by ownership,
grant system buckets, and send group buckets to
`_check_group_permission`. -/
def checkAccessAfterOrg (s : Settings) (now : Nat) (authority : HttpOutcome)
    (ctx : AuthContext) (permission : String) (info : BucketInfo)
    (db : RedisDb) : Except PyErr Bool × RedisDb :=
  let requiredPermission := buildPermission permission info
  match info.bucketType with
  | .user =>
    if info.resourceId = some ctx.userId then (.ok true, db)
    else (.error (.http ⟨403, "Cannot access another user's bucket"⟩), db)
  | .system => (.ok true, db)
  | .group => checkGroupPermission s now authority ctx requiredPermission db

/-- Embeds `AuthorizationService.check_access`: parse the bucket, raise 403
"Organization ID mismatch" when both org ids are present and differ, then
dispatch on the bucket type.  `authority` is the transport outcome the
remote authority would produce were it consulted; `now` is the current
instant; `db` the shared redis state. -/
def checkAccess (s : Settings) (now : Nat) (authority : HttpOutcome)
    (ctx : AuthContext) (permission bucket : String) (db : RedisDb) :
    Except PyErr Bool × RedisDb :=
  match BucketValidator.parse s bucket with
  | .error e => (.error (.http e), db)
  | .ok info =>
    match info.orgId, ctx.orgId with
    | some bucketOrg, some ctxOrg =>
      if bucketOrg ≠ ctxOrg then
        (.error (.http ⟨403, "Organization ID mismatch"⟩), db)
      else checkAccessAfterOrg s now authority ctx permission info db
    | _, _ => checkAccessAfterOrg s now authority ctx permission info db

/-! ## Theorems -/

/-- C1: whenever the parsed bucket descriptor and the caller identity both
carry an org id and the two differ, `check_access` raises 403
"Organization ID mismatch" and leaves the redis state untouched — for
every cache content, breaker state and authority answer, so the denial
precedes and is independent of any cache read, cache write or remote
call. -/
theorem C1_org_mismatch_first (s : Settings) (now : Nat)
    (authority : HttpOutcome) (ctx : AuthContext) (permission bucket : String)
    (db : RedisDb) (info : BucketInfo) (bucketOrg ctxOrg : String)
    (hparse : BucketValidator.parse s bucket = .ok info)
    (hbo : info.orgId = some bucketOrg) (hco : ctx.orgId = some ctxOrg)
    (hne : bucketOrg ≠ ctxOrg) :
    checkAccess s now authority ctx permission bucket db =
      (.error (.http ⟨403, "Organization ID mismatch"⟩), db) := by
  unfold checkAccess
  rw [hparse]
  simp only [hbo, hco, if_pos hne]

/-- Witness for C1 at a concrete input: caller org `zzz`, bucket org
`abc`, an authority that would grant, an empty cache. -/
theorem C1_org_mismatch_first_witness :
    checkAccess defaultSettings 0 (.status 200) ⟨"u1", some "zzz", []⟩
      "image:upload" "org-abc/groups/xyz/" emptyDb =
      (.error (.http ⟨403, "Organization ID mismatch"⟩), emptyDb) :=
  C1_org_mismatch_first defaultSettings 0 (.status 200) ⟨"u1", some "zzz", []⟩
    "image:upload" "org-abc/groups/xyz/" emptyDb
    ⟨.group, some "abc", some "xyz", "org-abc/groups/xyz/"⟩ "abc" "zzz"
    rfl rfl rfl (by decide)

/-- A redis state in which the circuit breaker is open (opened at instant
5 with the failure counter at the default threshold). -/
def dbBreakerOpen : RedisDb :=
  { emptyDb with
    cbState := some "OPEN"
    cbFailures := some 5
    cbOpenedAt := some 5 }

/-- C3: the code never consults `AUTH_FAIL_OPEN`.  At the point where a
group-bucket check would return `Unavailable` (here: breaker open, still
within its timeout), the 503 is raised for **both** values of the switch;
with the switch set the claimed substitution of `Granted` does not
happen.  The claim's failing input is the `failOpen = true` instance. -/
theorem C3_fail_open_never_consulted :
    checkAccess { defaultSettings with authFailOpen := true } 10
      (.status 200) ⟨"u1", some "abc", []⟩ "image:upload"
      "org-abc/groups/xyz/" dbBreakerOpen =
      (.error (.http ⟨503, "Authorization service temporarily unavailable"⟩),
        dbBreakerOpen)
    ∧ checkAccess { defaultSettings with authFailOpen := false } 10
      (.status 200) ⟨"u1", some "abc", []⟩ "image:upload"
      "org-abc/groups/xyz/" dbBreakerOpen =
      (.error (.http ⟨503, "Authorization service temporarily unavailable"⟩),
        dbBreakerOpen) :=
  ⟨rfl, rfl⟩

/-- C2: when the breaker gate lets the call through, a transport success
with status 200 returns `True` with a breaker success recorded, status 403
returns `False` **also** with a breaker success recorded, and every other
status, a timeout, or a connection failure raises 503 with a breaker
failure recorded; the 403 denial never increments the failure counter. -/
theorem C2_authority_outcome_mapping (s : Settings) (now : Nat)
    (db db0 : RedisDb) (hgate : cbIsOpen s now db = (false, db0)) :
    cbExecute s now (checkPermission (.status 200)) db =
      (.ok true, cbRecordSuccess s db0)
    ∧ cbExecute s now (checkPermission (.status 403)) db =
      (.ok false, cbRecordSuccess s db0)
    ∧ (∀ code, code ≠ 200 → code ≠ 403 →
        cbExecute s now (checkPermission (.status code)) db =
          (.error (.http ⟨503, "Authorization service unavailable"⟩),
            cbRecordFailure s now db0))
    ∧ cbExecute s now (checkPermission .timeout) db =
      (.error (.http ⟨503, "Authorization service timeout"⟩),
        cbRecordFailure s now db0)
    ∧ cbExecute s now (checkPermission .connectError) db =
      (.error (.http ⟨503, "Authorization service unreachable"⟩),
        cbRecordFailure s now db0)
    ∧ (cbExecute s now (checkPermission (.status 403)) db).2.cbFailures.getD 0
        ≤ db0.cbFailures.getD 0 := by
  refine ⟨?_, ?_, ?_, ?_, ?_, ?_⟩
  · unfold cbExecute; rw [hgate]; rfl
  · unfold cbExecute; rw [hgate]; rfl
  · intro code h200 h403
    unfold cbExecute
    rw [hgate]
    simp only [checkPermission, if_neg h200, if_neg h403]
    rfl
  · unfold cbExecute; rw [hgate]; rfl
  · unfold cbExecute; rw [hgate]; rfl
  · unfold cbExecute
    rw [hgate]
    show (cbRecordSuccess s db0).cbFailures.getD 0 ≤ db0.cbFailures.getD 0
    unfold cbRecordSuccess
    by_cases h : s.circuitBreakerEnabled <;> simp [h]

/-- Witness for C2 at a concrete input: closed breaker on an empty store,
denial outcome. -/
theorem C2_authority_outcome_mapping_witness :
    cbExecute defaultSettings 0 (checkPermission (.status 403)) emptyDb =
      (.ok false, cbRecordSuccess defaultSettings emptyDb) :=
  (C2_authority_outcome_mapping defaultSettings 0 emptyDb emptyDb rfl).2.1

/-- C4 counterexample: default settings (threshold 5, timeout 60),
breaker opened at instant 0, consulted at instant 61.  The gate allows
the attempt and fully resets the breaker (no `half_open` phase exists in
the code); a second consultation allows again (not "exactly once"); and a
single recorded failure right after does **not** reopen the breaker,
contradicting the claim's `half_open` reopen-on-failure behaviour. -/
theorem C4_counterexample :
    cbIsOpen defaultSettings 61
        { emptyDb with
          cbState := some "OPEN"
          cbFailures := some 5
          cbOpenedAt := some 0 } =
      (false, emptyDb)
    ∧ cbIsOpen defaultSettings 61 emptyDb = (false, emptyDb)
    ∧ (cbRecordFailure defaultSettings 61 emptyDb).cbState = none := by
  exact ⟨rfl, rfl, rfl⟩

/-- C4 (amended): after the breaker opens, the gate blocks while the
elapsed time since `opened_at` is at most the configured timeout; once
strictly more has elapsed, consulting the gate deletes the breaker keys
(fully closed — there is no `half_open` phase) and allows the attempt,
as does every later consultation; a single recorded failure after the
reset reopens the breaker only if the threshold is 1, and a recorded
success leaves the reset state unchanged. -/
theorem C4_open_timeout_reset (s : Settings) (t now : Nat) (db : RedisDb)
    (hen : s.circuitBreakerEnabled = true) (hst : db.cbState = some "OPEN")
    (hat : db.cbOpenedAt = some t) :
    (¬ t + s.circuitBreakerTimeout < now → cbIsOpen s now db = (true, db))
    ∧ (t + s.circuitBreakerTimeout < now →
        cbIsOpen s now db = (false, cbReset db)
        ∧ cbIsOpen s now (cbReset db) = (false, cbReset db)
        ∧ (cbRecordFailure s now (cbReset db)).cbState =
            (if s.circuitBreakerThreshold ≤ 1 then some "OPEN" else none)
        ∧ cbRecordSuccess s (cbReset db) = cbReset db) := by
  constructor
  · intro hlt
    unfold cbIsOpen
    rw [hst, hat]
    simp [hen, hlt]
  · intro hlt
    refine ⟨?_, ?_, ?_, ?_⟩
    · unfold cbIsOpen
      rw [hst, hat]
      simp [hen, hlt]
    · unfold cbIsOpen cbReset
      simp [hen]
    · unfold cbRecordFailure cbReset cbOpen
      by_cases hth : s.circuitBreakerThreshold ≤ 1 <;> simp [hen, hth]
    · unfold cbRecordSuccess cbReset
      simp [hen]

/-- Witness for C4 at a concrete input: default settings, opened at 0,
consulted at 61 (blocked at 50). -/
theorem C4_open_timeout_reset_witness :
    cbIsOpen defaultSettings 50
        { emptyDb with
          cbState := some "OPEN"
          cbFailures := some 5
          cbOpenedAt := some 0 } =
      (true,
        { emptyDb with
          cbState := some "OPEN"
          cbFailures := some 5
          cbOpenedAt := some 0 }) :=
  (C4_open_timeout_reset defaultSettings 0 50
    { emptyDb with
      cbState := some "OPEN"
      cbFailures := some 5
      cbOpenedAt := some 0 } rfl rfl rfl).1 (by decide)

/-- C5 counterexample: `record_success` on an **open** breaker clears the
failure counter but leaves the state key at `b"OPEN"` — it does not set
the phase to closed, contradicting the claim's "sets the phase to closed
unconditionally". -/
theorem C5_counterexample :
    (cbRecordSuccess defaultSettings
        { emptyDb with
          cbState := some "OPEN"
          cbFailures := some 3
          cbOpenedAt := some 0 }).cbState = some "OPEN"
    ∧ (cbRecordSuccess defaultSettings
        { emptyDb with
          cbState := some "OPEN"
          cbFailures := some 3
          cbOpenedAt := some 0 }).cbFailures = none := ⟨rfl, rfl⟩

/-- Iterates `record_failure` the given number of times. -/
def cbFailN (s : Settings) (now : Nat) : Nat → RedisDb → RedisDb
  | 0, db => db
  | n + 1, db => cbRecordFailure s now (cbFailN s now n db)

/-- After `n` consecutive failures from a clean breaker, the state key is
open exactly when `n` reached the threshold and the counter reads `n`. -/
theorem cbFailN_invariant (s : Settings) (now : Nat) (db : RedisDb)
    (hen : s.circuitBreakerEnabled = true)
    (hth : 1 ≤ s.circuitBreakerThreshold) (hst : db.cbState = none)
    (hf : db.cbFailures = none) :
    ∀ n, (cbFailN s now n db).cbState =
        (if s.circuitBreakerThreshold ≤ n then some "OPEN" else none)
      ∧ (cbFailN s now n db).cbFailures =
        (if n = 0 then none else some n) := by
  intro n
  induction n with
  | zero =>
    constructor
    · show db.cbState = _
      rw [hst, if_neg (by omega : ¬s.circuitBreakerThreshold ≤ 0)]
    · show db.cbFailures = _
      rw [hf, if_pos rfl]
  | succ n ih =>
    obtain ⟨ihs, ihf⟩ := ih
    have hcount : (cbFailN s now n db).cbFailures.getD 0 = n := by
      rw [ihf]
      by_cases h : n = 0 <;> simp [h]
    have hstep : cbFailN s now (n + 1) db =
        (if s.circuitBreakerThreshold ≤ n + 1 then
          cbOpen now { cbFailN s now n db with cbFailures := some (n + 1) }
        else { cbFailN s now n db with cbFailures := some (n + 1) }) := by
      show cbRecordFailure s now (cbFailN s now n db) = _
      unfold cbRecordFailure
      simp only [hen, Bool.not_true, Bool.false_eq_true, if_false, hcount]
    by_cases hop : s.circuitBreakerThreshold ≤ n + 1
    · rw [hstep, if_pos hop, if_pos hop, if_neg (Nat.succ_ne_zero n)]
      exact ⟨rfl, rfl⟩
    · rw [hstep, if_neg hop, if_neg hop, if_neg (Nat.succ_ne_zero n)]
      constructor
      · show (cbFailN s now n db).cbState = _
        rw [ihs, if_neg (by omega)]
      · rfl

/-- C5 (amended): from a clean breaker, the circuit opens at exactly the
configured threshold of consecutive failures (open after `threshold`
failures, still closed after any smaller count), and `record_success`
unconditionally resets the counter while leaving the state and
`opened_at` keys untouched — it does not set the phase to closed. -/
theorem C5_threshold_and_success (s : Settings) (now : Nat) (db : RedisDb)
    (n : Nat) (hen : s.circuitBreakerEnabled = true)
    (hth : 1 ≤ s.circuitBreakerThreshold) (hst : db.cbState = none)
    (hf : db.cbFailures = none) :
    ((cbFailN s now n db).cbState = some "OPEN"
      ↔ s.circuitBreakerThreshold ≤ n)
    ∧ (∀ db2 : RedisDb, (cbRecordSuccess s db2).cbFailures = none
        ∧ (cbRecordSuccess s db2).cbState = db2.cbState
        ∧ (cbRecordSuccess s db2).cbOpenedAt = db2.cbOpenedAt) := by
  constructor
  · rw [(cbFailN_invariant s now db hen hth hst hf n).1]
    by_cases h : s.circuitBreakerThreshold ≤ n <;> simp [h]
  · intro db2
    unfold cbRecordSuccess
    simp [hen]

/-- Witness for C5 at a concrete input: default threshold 5, exactly 5
failures open the breaker (4 do not, by the same theorem at `n = 4`). -/
theorem C5_threshold_and_success_witness :
    ((cbFailN defaultSettings 0 5 emptyDb).cbState = some "OPEN" ↔ 5 ≤ 5)
    ∧ (∀ db2 : RedisDb,
        (cbRecordSuccess defaultSettings db2).cbFailures = none
        ∧ (cbRecordSuccess defaultSettings db2).cbState = db2.cbState
        ∧ (cbRecordSuccess defaultSettings db2).cbOpenedAt
          = db2.cbOpenedAt) :=
  C5_threshold_and_success defaultSettings 0 emptyDb 5 rfl (by decide) rfl rfl

/-- Follows the spec's words (§4.2), not the source: the trailing segment
of the permission string after the last `:` (the whole string when it has
no `:`). -/
def specTrailingSegment (perm : String) : String :=
  ((perm.data.reverse.takeWhile (fun c => c ≠ ':')).reverse).asString

/-- Follows the spec's words (§4.2), not the source: the TTL the spec says
a granted decision should be stored with — `read|list|view|get` → the
"read" TTL, `admin|delete|purge` → the "admin" TTL, anything else → the
"write" TTL. -/
def specTtlForPermission (ttlRead ttlWrite ttlAdmin : Nat)
    (perm : String) : Nat :=
  let seg := specTrailingSegment perm
  if seg = "read" ∨ seg = "list" ∨ seg = "view" ∨ seg = "get" then ttlRead
  else if seg = "admin" ∨ seg = "delete" ∨ seg = "purge" then ttlAdmin
  else ttlWrite

/-- The TTL the source's `AuthorizationCache.set` actually stores for a
decision, read back from the redis entry it writes. -/
def ttlStoredBySet (s : Settings) (perm : String) (allowed : Bool) :
    Option Nat :=
  match cacheSet s (dbSetex emptyDb) emptyDb "org1" "user1" perm allowed with
  | .ok db => (db.kv (makeKey "org1" "user1" perm)).map CacheEntry.ttl
  | .error _ => none

/-- C7 counterexample: under the default configuration no assignment of a
"read" TTL, a "write" TTL and an "admin" TTL with the spec's ordering
(admin shortest, read longest) matches what the code stores: the code
stores the single configured allowed TTL for every granted decision, so a
permission ending in `:read` and one ending in `:admin` get the same TTL
(60), which the claim's stratification forbids. -/
theorem C7_counterexample :
    ¬ ∃ ttlRead ttlWrite ttlAdmin : Nat,
        ttlAdmin < ttlWrite ∧ ttlWrite < ttlRead ∧
        ∀ perm : String, ttlStoredBySet defaultSettings perm true =
          some (specTtlForPermission ttlRead ttlWrite ttlAdmin perm) := by
  rintro ⟨ttlRead, ttlWrite, ttlAdmin, h1, h2, h⟩
  have hr := h "image:read"
  have ha := h "image:admin"
  rw [show ttlStoredBySet defaultSettings "image:read" true = some 60 from
    rfl] at hr
  rw [show ttlStoredBySet defaultSettings "image:admin" true = some 60 from
    rfl] at ha
  rw [show specTtlForPermission ttlRead ttlWrite ttlAdmin "image:read"
    = ttlRead from rfl] at hr
  rw [show specTtlForPermission ttlRead ttlWrite ttlAdmin "image:admin"
    = ttlAdmin from rfl] at ha
  have hr2 : ttlRead = 60 := (Option.some.inj hr).symm
  have ha2 : ttlAdmin = 60 := (Option.some.inj ha).symm
  omega

/-- C7 (amended): `set` without an explicit TTL (the source's `set` takes
none) stores a denied decision with the configured denied TTL and a
granted decision with the single configured allowed TTL, independent of
the permission string — there is no read/write/admin stratification.  The
entry is written under the triple's key with value `"1"`/`"0"` and no
other key changes. -/
theorem C7_ttl_by_outcome_only (s : Settings) (db : RedisDb)
    (org user perm : String) (allowed : Bool)
    (hen : s.authCacheEnabled = true) :
    ∃ db2, cacheSet s (dbSetex db) db org user perm allowed = .ok db2
      ∧ db2.kv (makeKey org user perm) =
          some ⟨if allowed then "1" else "0",
            if allowed then s.authCacheTtlAllowed else s.authCacheTtlDenied⟩
      ∧ (∀ k, k ≠ makeKey org user perm → db2.kv k = db.kv k)
      ∧ ttlStoredBySet s perm allowed =
          some (if allowed then s.authCacheTtlAllowed
            else s.authCacheTtlDenied) := by
  refine ⟨{ db with kv := fun k =>
              if k = makeKey org user perm then
                some ⟨if allowed then "1" else "0",
                  if allowed then s.authCacheTtlAllowed
                  else s.authCacheTtlDenied⟩
              else db.kv k }, ?_, ?_, ?_, ?_⟩
  · unfold cacheSet
    simp only [hen, Bool.not_true, Bool.false_eq_true, if_false]
    rfl
  · show (if makeKey org user perm = makeKey org user perm then _ else _)
      = _
    rw [if_pos rfl]
  · intro k hk
    show (if k = makeKey org user perm then _ else _) = _
    rw [if_neg hk]
  · unfold ttlStoredBySet cacheSet
    simp only [hen, Bool.not_true, Bool.false_eq_true, if_false]
    show ((if makeKey "org1" "user1" perm = makeKey "org1" "user1" perm
      then _ else _ : Option CacheEntry)).map CacheEntry.ttl = _
    rw [if_pos rfl]
    rfl

/-- Witness for C7 at a concrete input: granted decision for
`image:admin` stored with the allowed TTL 60. -/
theorem C7_ttl_by_outcome_only_witness :
    ∃ db2, cacheSet defaultSettings (dbSetex emptyDb) emptyDb "org1"
        "user1" "image:admin" true = .ok db2
      ∧ db2.kv (makeKey "org1" "user1" "image:admin") =
          some ⟨if true then "1" else "0",
            if true then defaultSettings.authCacheTtlAllowed
            else defaultSettings.authCacheTtlDenied⟩
      ∧ (∀ k, k ≠ makeKey "org1" "user1" "image:admin" →
          db2.kv k = emptyDb.kv k)
      ∧ ttlStoredBySet defaultSettings "image:admin" true =
          some (if true then defaultSettings.authCacheTtlAllowed
            else defaultSettings.authCacheTtlDenied) :=
  C7_ttl_by_outcome_only defaultSettings emptyDb "org1" "user1"
    "image:admin" true rfl

/-- C8 counterexample: a backing store whose `get` raises a connection
error makes `AuthorizationCache.get` raise (not report a miss), and one
whose `setex` raises makes `AuthorizationCache.set` raise (not swallow):
the source wraps neither call in a handler. -/
theorem C8_counterexample :
    cacheGet defaultSettings (fun _ => .error "ConnectionError") "org1"
        "user1" "image:upload" = .error "ConnectionError"
    ∧ cacheSet defaultSettings
        (fun _ _ _ => (.error "ConnectionError" : Except String Unit)) ()
        "org1" "user1" "image:upload" true = .error "ConnectionError" :=
  ⟨rfl, rfl⟩

/-- C8 (amended): with the cache enabled, an I/O failure of the backing
store during `get` or `set` propagates to the caller as the raised redis
error — it is neither treated as a miss nor swallowed; only the
cache-disabled path avoids touching the store. -/
theorem C8_io_failure_propagates (s : Settings)
    (msg org user perm : String) (allowed : Bool)
    (hen : s.authCacheEnabled = true) :
    cacheGet s (fun _ => .error msg) org user perm = .error msg
    ∧ cacheSet s (fun _ _ _ => (.error msg : Except String Unit)) ()
        org user perm allowed = .error msg
    ∧ cacheGet { s with authCacheEnabled := false }
        (fun _ => .error msg) org user perm = .ok none := by
  refine ⟨?_, ?_, rfl⟩
  · unfold cacheGet
    simp [hen]
  · unfold cacheSet
    simp [hen]

/-- Witness for C8 at a concrete input. -/
theorem C8_io_failure_propagates_witness :
    cacheGet defaultSettings (fun _ => .error "redis down") "org1" "user1"
        "image:upload" = .error "redis down"
    ∧ cacheSet defaultSettings
        (fun _ _ _ => (.error "redis down" : Except String Unit)) ()
        "org1" "user1" "image:upload" false = .error "redis down"
    ∧ cacheGet { defaultSettings with authCacheEnabled := false }
        (fun _ => .error "redis down") "org1" "user1" "image:upload"
        = .ok none :=
  C8_io_failure_propagates defaultSettings "redis down" "org1" "user1"
    "image:upload" false rfl

/-- Joining two colon-free prefixes with `:` is cancellative: equal joins
force equal parts. -/
theorem colonAppendInj (as : List Char) : ∀ (as' bs bs' : List Char),
    (':' : Char) ∉ as → (':' : Char) ∉ as' →
    as ++ ':' :: bs = as' ++ ':' :: bs' → as = as' ∧ bs = bs' := by
  induction as with
  | nil =>
    intro as' bs bs' _ h' heq
    cases as' with
    | nil => simpa using heq
    | cons a' t' =>
      simp only [List.nil_append, List.cons_append, List.cons.injEq] at heq
      exact absurd (heq.1 ▸ List.mem_cons_self a' t') h'
  | cons a t ih =>
    intro as' bs bs' h h' heq
    cases as' with
    | nil =>
      simp only [List.cons_append, List.nil_append, List.cons.injEq] at heq
      exact absurd (heq.1 ▸ List.mem_cons_self a t) h
    | cons a' t' =>
      simp only [List.cons_append, List.cons.injEq] at heq
      obtain ⟨h1, h2⟩ := heq
      obtain ⟨e1, e2⟩ := ih t' bs bs'
        (fun hm => h (List.mem_cons_of_mem _ hm))
        (fun hm => h' (List.mem_cons_of_mem _ hm)) h2
      exact ⟨by rw [h1, e1], e2⟩

/-- The characters of a constructed cache key. -/
theorem makeKey_data (o u p : String) :
    (makeKey o u p).data =
      "auth:permission:".data ++ (o.data ++ ':' :: (u.data ++ ':' :: p.data)) := by
  simp [makeKey, String.data_append]

/-- C9 counterexample: two componentwise-distinct triples produce the same
cache key when a component contains `:` — the decision written for
`("a", "b:c", "d")` lives under the same key as `("a:b", "c", "d")`. -/
theorem C9_counterexample :
    makeKey "a" "b:c" "d" = makeKey "a:b" "c" "d"
    ∧ ¬(("a" : String) = "a:b" ∧ ("b:c" : String) = "c"
        ∧ ("d" : String) = "d") :=
  ⟨rfl, by decide⟩

/-- C9 (amended): componentwise equality always gives key equality; the
converse holds whenever the org and user components are colon-free (the
permission component may contain `:`): under that restriction the keys
are equal iff all three components are equal, so cache isolation across
orgs, users and permissions is structural for colon-free org/user ids. -/
theorem C9_key_injective_colon_free (o1 u1 p1 o2 u2 p2 : String)
    (ho1 : (':' : Char) ∉ o1.data) (hu1 : (':' : Char) ∉ u1.data)
    (ho2 : (':' : Char) ∉ o2.data) (hu2 : (':' : Char) ∉ u2.data) :
    makeKey o1 u1 p1 = makeKey o2 u2 p2 ↔ (o1 = o2 ∧ u1 = u2 ∧ p1 = p2) := by
  constructor
  · intro h
    have hd := congrArg String.data h
    rw [makeKey_data, makeKey_data] at hd
    have hd2 := List.append_cancel_left hd
    obtain ⟨e1, e2⟩ := colonAppendInj o1.data o2.data _ _ ho1 ho2 hd2
    obtain ⟨e3, e4⟩ := colonAppendInj u1.data u2.data _ _ hu1 hu2 e2
    exact ⟨String.ext e1, String.ext e3, String.ext e4⟩
  · rintro ⟨rfl, rfl, rfl⟩
    rfl

/-- Witness for C9 at concrete colon-free org/user components. -/
theorem C9_key_injective_colon_free_witness :
    makeKey "orgA" "u1" "image:upload" = makeKey "orgB" "u1" "image:upload"
      ↔ (("orgA" : String) = "orgB" ∧ ("u1" : String) = "u1"
          ∧ ("image:upload" : String) = "image:upload") :=
  C9_key_injective_colon_free "orgA" "u1" "image:upload" "orgB" "u1"
    "image:upload" (by decide) (by decide) (by decide) (by decide)

/-! ## Bucket-shape lemmas for the resolver -/

/-- A valid captured segment: nonempty and drawn from `[a-zA-Z0-9\-_]`. -/
def ValidSeg (x : String) : Prop :=
  x ≠ "" ∧ ∀ c ∈ x.data, isSegChar c = true

instance (x : String) : Decidable (ValidSeg x) :=
  inferInstanceAs (Decidable (_ ∧ _))

theorem dropPre_append : ∀ (p s : List Char), dropPre p (p ++ s) = some s
  | [], _ => rfl
  | c :: ps, s => by simp [dropPre, dropPre_append ps s]

theorem takeWhile_all_append (q : Char → Bool) :
    ∀ (xs ys : List Char), (∀ c ∈ xs, q c = true) →
      (xs ++ ys).takeWhile q = xs ++ ys.takeWhile q
  | [], _, _ => rfl
  | x :: xs, ys, h => by
    have hx : q x = true := h x (List.mem_cons_self x xs)
    simp only [List.cons_append, List.takeWhile_cons, hx, if_true]
    rw [takeWhile_all_append q xs ys (fun c hc => h c (List.mem_cons_of_mem x hc))]

theorem dropWhile_all_append (q : Char → Bool) :
    ∀ (xs ys : List Char), (∀ c ∈ xs, q c = true) →
      (xs ++ ys).dropWhile q = ys.dropWhile q
  | [], _, _ => rfl
  | x :: xs, ys, h => by
    have hx : q x = true := h x (List.mem_cons_self x xs)
    simp only [List.cons_append, List.dropWhile_cons, hx, if_true]
    exact dropWhile_all_append q xs ys (fun c hc => h c (List.mem_cons_of_mem x hc))

theorem asString_data (s : String) : s.data.asString = s :=
  String.asString_toList s

/-- Evaluation of `matchSeg` on a well-formed `prefix ++ segment ++ rest` input captures
exactly the segment when `rest` is empty or starts with `/`. -/
theorem matchSeg_build (pre seg : String) (rest : List Char)
    (hseg1 : seg ≠ "") (hseg2 : ∀ c ∈ seg.data, isSegChar c = true)
    (hrest : rest = [] ∨ ∃ c r, rest = c :: r ∧ isSegChar c = false) :
    matchSeg pre (pre.data ++ (seg.data ++ rest)) = some (seg.data, rest) := by
  have hne : seg.data ≠ [] := by
    intro h
    exact hseg1 (String.ext (h.trans rfl))
  have htk : (seg.data ++ rest).takeWhile isSegChar = seg.data := by
    rw [takeWhile_all_append isSegChar seg.data rest hseg2]
    rcases hrest with h | ⟨c, r, h, hc⟩ <;> subst h
    · simp
    · rw [List.takeWhile_cons]
      simp [hc]
  have hdp : (seg.data ++ rest).dropWhile isSegChar = rest := by
    rw [dropWhile_all_append isSegChar seg.data rest hseg2]
    rcases hrest with h | ⟨c, r, h, hc⟩ <;> subst h
    · rfl
    · rw [List.dropWhile_cons]
      simp [hc]
  unfold matchSeg
  rw [dropPre_append]
  simp only [htk, hdp, if_neg hne]

/-- Fact that `optSlashEnd` holds for the data of the four remainders the
Python anchor `/?$` accepts. -/
theorem optSlashEnd_tail (tail : String)
    (htail : tail = "" ∨ tail = "/" ∨ tail = "\n" ∨ tail = "/\n") :
    optSlashEnd tail.data = true := by
  rcases htail with h | h | h | h <;> subst h <;> rfl

theorem tailData_shape (tail : String)
    (htail : tail = "" ∨ tail = "/" ∨ tail = "\n" ∨ tail = "/\n") :
    tail.data = [] ∨ ∃ c r, tail.data = c :: r ∧ isSegChar c = false := by
  rcases htail with h | h | h | h <;> subst h
  · exact Or.inl rfl
  · exact Or.inr ⟨'/', [], rfl, rfl⟩
  · exact Or.inr ⟨'\n', [], rfl, rfl⟩
  · exact Or.inr ⟨'/', ['\n'], rfl, rfl⟩

theorem parse_group_org (s : Settings) (org gid tail : String)
    (horg : ValidSeg org) (hgid : ValidSeg gid)
    (htail : tail = "" ∨ tail = "/" ∨ tail = "\n" ∨ tail = "/\n") :
    BucketValidator.parse s ("org-" ++ org ++ "/groups/" ++ gid ++ tail) =
      .ok ⟨.group, some org, some gid,
        "org-" ++ org ++ "/groups/" ++ gid ++ tail⟩ := by
  set bucket := "org-" ++ org ++ "/groups/" ++ gid ++ tail with hb
  have hdata : bucket.data =
      "org-".data ++ (org.data ++
        ("/groups/".data ++ (gid.data ++ tail.data))) := by
    simp [hb, String.data_append]
  have hrest1 : "/groups/".data ++ (gid.data ++ tail.data) =
      '/' :: ("groups/".data ++ (gid.data ++ tail.data)) := rfl
  have hm1 := matchSeg_build "org-" org
    ("/groups/".data ++ (gid.data ++ tail.data)) horg.1 horg.2
    (Or.inr ⟨'/', "groups/".data ++ (gid.data ++ tail.data), hrest1, rfl⟩)
  have hm2 := matchSeg_build "/groups/" gid tail.data hgid.1 hgid.2
    (tailData_shape tail htail)
  have hmg : matchGroupOrg bucket.data = some (org, gid) := by
    rw [hdata]
    unfold matchGroupOrg
    simp only [hm1, hm2, optSlashEnd_tail tail htail, if_true, asString_data]
  have hlen : 0 < bucket.data.length := by
    rw [hdata]
    simp
  have hne : bucket ≠ "" := by
    intro h
    rw [h] at hlen
    simp at hlen
  unfold BucketValidator.parse
  rw [if_neg hne, hmg]

theorem parse_user_org (s : Settings) (org uid tail : String)
    (horg : ValidSeg org) (huid : ValidSeg uid)
    (htail : tail = "" ∨ tail = "/" ∨ tail = "\n" ∨ tail = "/\n") :
    BucketValidator.parse s ("org-" ++ org ++ "/users/" ++ uid ++ tail) =
      .ok ⟨.user, some org, some uid,
        "org-" ++ org ++ "/users/" ++ uid ++ tail⟩ := by
  set bucket := "org-" ++ org ++ "/users/" ++ uid ++ tail with hb
  have hdata : bucket.data =
      "org-".data ++ (org.data ++
        ("/users/".data ++ (uid.data ++ tail.data))) := by
    simp [hb, String.data_append]
  have hrest1 : "/users/".data ++ (uid.data ++ tail.data) =
      '/' :: ("users/".data ++ (uid.data ++ tail.data)) := rfl
  have hm1 := matchSeg_build "org-" org
    ("/users/".data ++ (uid.data ++ tail.data)) horg.1 horg.2
    (Or.inr ⟨'/', "users/".data ++ (uid.data ++ tail.data), hrest1, rfl⟩)
  have hm2 := matchSeg_build "/users/" uid tail.data huid.1 huid.2
    (tailData_shape tail htail)
  have hmgN : matchGroupOrg bucket.data = none := by
    rw [hdata]
    unfold matchGroupOrg
    simp only [hm1]
    rfl
  have hmu : matchUserOrg bucket.data = some (org, uid) := by
    rw [hdata]
    unfold matchUserOrg
    simp only [hm1, hm2, optSlashEnd_tail tail htail, if_true, asString_data]
  have hlen : 0 < bucket.data.length := by
    rw [hdata]
    simp
  have hne : bucket ≠ "" := by
    intro h
    rw [h] at hlen
    simp at hlen
  unfold BucketValidator.parse
  rw [if_neg hne, hmgN, hmu]

theorem parse_system_org (s : Settings) (org tail : String)
    (horg : ValidSeg org) (htail : tail = "" ∨ tail = "/" ∨ tail = "\n" ∨ tail = "/\n") :
    BucketValidator.parse s ("org-" ++ org ++ "/system" ++ tail) =
      .ok ⟨.system, some org, none, "org-" ++ org ++ "/system" ++ tail⟩ := by
  set bucket := "org-" ++ org ++ "/system" ++ tail with hb
  have hdata : bucket.data =
      "org-".data ++ (org.data ++ ("/system".data ++ tail.data)) := by
    simp [hb, String.data_append]
  have hrest1 : "/system".data ++ tail.data =
      '/' :: ("system".data ++ tail.data) := rfl
  have hm1 := matchSeg_build "org-" org ("/system".data ++ tail.data)
    horg.1 horg.2 (Or.inr ⟨'/', "system".data ++ tail.data, hrest1, rfl⟩)
  have hmgN : matchGroupOrg bucket.data = none := by
    rw [hdata]
    unfold matchGroupOrg
    simp only [hm1]
    rfl
  have hmuN : matchUserOrg bucket.data = none := by
    rw [hdata]
    unfold matchUserOrg
    simp only [hm1]
    rfl
  have hms : matchSystemOrg bucket.data = some org := by
    rw [hdata]
    unfold matchSystemOrg
    simp only [hm1, dropPre_append, optSlashEnd_tail tail htail, if_true,
      asString_data]
  have hlen : 0 < bucket.data.length := by
    rw [hdata]
    simp
  have hne : bucket ≠ "" := by
    intro h
    rw [h] at hlen
    simp at hlen
  unfold BucketValidator.parse
  rw [if_neg hne, hmgN, hmuN, hms]

theorem parse_group_simple (s : Settings) (gid tail : String)
    (hgid : ValidSeg gid) (htail : tail = "" ∨ tail = "/" ∨ tail = "\n" ∨ tail = "/\n") :
    BucketValidator.parse s ("groups/" ++ gid ++ tail) =
      .ok ⟨.group, none, some gid, "groups/" ++ gid ++ tail⟩ := by
  set bucket := "groups/" ++ gid ++ tail with hb
  have hdata : bucket.data = "groups/".data ++ (gid.data ++ tail.data) := by
    simp [hb, String.data_append]
  have hm1 := matchSeg_build "groups/" gid tail.data hgid.1 hgid.2
    (tailData_shape tail htail)
  have hmgN : matchGroupOrg bucket.data = none := by
    rw [hdata]
    rfl
  have hmuN : matchUserOrg bucket.data = none := by
    rw [hdata]
    rfl
  have hmsN : matchSystemOrg bucket.data = none := by
    rw [hdata]
    rfl
  have hmgs : matchGroupSimple bucket.data = some gid := by
    rw [hdata]
    unfold matchGroupSimple
    simp only [hm1, optSlashEnd_tail tail htail, if_true, asString_data]
  have hlen : 0 < bucket.data.length := by
    rw [hdata]
    simp
  have hne : bucket ≠ "" := by
    intro h
    rw [h] at hlen
    simp at hlen
  unfold BucketValidator.parse
  rw [if_neg hne, hmgN, hmuN, hmsN, hmgs]

theorem parse_user_simple (s : Settings) (uid tail : String)
    (huid : ValidSeg uid) (htail : tail = "" ∨ tail = "/" ∨ tail = "\n" ∨ tail = "/\n") :
    BucketValidator.parse s ("users/" ++ uid ++ tail) =
      .ok ⟨.user, none, some uid, "users/" ++ uid ++ tail⟩ := by
  set bucket := "users/" ++ uid ++ tail with hb
  have hdata : bucket.data = "users/".data ++ (uid.data ++ tail.data) := by
    simp [hb, String.data_append]
  have hm1 := matchSeg_build "users/" uid tail.data huid.1 huid.2
    (tailData_shape tail htail)
  have hmgN : matchGroupOrg bucket.data = none := by
    rw [hdata]
    rfl
  have hmuN : matchUserOrg bucket.data = none := by
    rw [hdata]
    rfl
  have hmsN : matchSystemOrg bucket.data = none := by
    rw [hdata]
    rfl
  have hmgsN : matchGroupSimple bucket.data = none := by
    rw [hdata]
    rfl
  have hmus : matchUserSimple bucket.data = some uid := by
    rw [hdata]
    unfold matchUserSimple
    simp only [hm1, optSlashEnd_tail tail htail, if_true, asString_data]
  have hlen : 0 < bucket.data.length := by
    rw [hdata]
    simp
  have hne : bucket ≠ "" := by
    intro h
    rw [h] at hlen
    simp at hlen
  unfold BucketValidator.parse
  rw [if_neg hne, hmgN, hmuN, hmsN, hmgsN, hmus]

theorem parse_system_simple (s : Settings) (tail : String)
    (htail : tail = "" ∨ tail = "/" ∨ tail = "\n" ∨ tail = "/\n") :
    BucketValidator.parse s ("system" ++ tail) =
      .ok ⟨.system, none, none, "system" ++ tail⟩ := by
  set bucket := "system" ++ tail with hb
  have hdata : bucket.data = "system".data ++ tail.data := by
    simp [hb, String.data_append]
  have hmgN : matchGroupOrg bucket.data = none := by
    rw [hdata]
    rfl
  have hmuN : matchUserOrg bucket.data = none := by
    rw [hdata]
    rfl
  have hmsN : matchSystemOrg bucket.data = none := by
    rw [hdata]
    rfl
  have hmgsN : matchGroupSimple bucket.data = none := by
    rw [hdata]
    rfl
  have hmusN : matchUserSimple bucket.data = none := by
    rw [hdata]
    rfl
  have hmss : matchSystemSimple bucket.data = true := by
    rw [hdata]
    unfold matchSystemSimple
    simp only [dropPre_append, optSlashEnd_tail tail htail]
  have hlen : 0 < bucket.data.length := by
    rw [hdata]
    simp
  have hne : bucket ≠ "" := by
    intro h
    rw [h] at hlen
    simp at hlen
  unfold BucketValidator.parse
  rw [if_neg hne, hmgN, hmuN, hmsN, hmgsN, hmusN, hmss]
  rfl

/-- C6 counterexample: with lenient (non-strict) validation configured,
the empty bucket string does **not** degrade to the fallback descriptor —
the emptiness check precedes the strict/lenient branch and raises 400
unconditionally. -/
theorem C6_counterexample :
    BucketValidator.parse
        { defaultSettings with bucketValidationStrict := false } "" =
      .error emptyBucketError
    ∧ ∀ info : BucketInfo,
        BucketValidator.parse
            { defaultSettings with bucketValidationStrict := false } "" ≠
          .ok info := by
  refine ⟨rfl, fun info h => ?_⟩
  rw [show BucketValidator.parse
      { defaultSettings with bucketValidationStrict := false } "" =
      .error emptyBucketError from rfl] at h
  exact Except.noConfusion h

/-- C6 (amended): each of the six recognized bucket shapes parses to the
descriptor with the correct kind, org id and resource id — the trailing
slash is optional and, because Python's `$` anchor also matches just
before one trailing newline, each shape is additionally accepted with a
trailing `"\n"` or `"/\n"`; a non-empty string matching none of the six
patterns raises `InvalidFormat` in strict mode and falls back to the
`system`/`"default-org"` descriptor in lenient mode; the **empty** string
raises 400 in both modes (it never reaches the fallback). -/
theorem C6_six_shapes_strict_lenient :
    (∀ (s : Settings) (org gid tail : String), ValidSeg org → ValidSeg gid →
      tail = "" ∨ tail = "/" ∨ tail = "\n" ∨ tail = "/\n" →
      BucketValidator.parse s ("org-" ++ org ++ "/groups/" ++ gid ++ tail) =
        .ok ⟨.group, some org, some gid,
          "org-" ++ org ++ "/groups/" ++ gid ++ tail⟩)
    ∧ (∀ (s : Settings) (org uid tail : String), ValidSeg org →
        ValidSeg uid → tail = "" ∨ tail = "/" ∨ tail = "\n" ∨ tail = "/\n" →
        BucketValidator.parse s ("org-" ++ org ++ "/users/" ++ uid ++ tail) =
          .ok ⟨.user, some org, some uid,
            "org-" ++ org ++ "/users/" ++ uid ++ tail⟩)
    ∧ (∀ (s : Settings) (org tail : String), ValidSeg org →
        tail = "" ∨ tail = "/" ∨ tail = "\n" ∨ tail = "/\n" →
        BucketValidator.parse s ("org-" ++ org ++ "/system" ++ tail) =
          .ok ⟨.system, some org, none, "org-" ++ org ++ "/system" ++ tail⟩)
    ∧ (∀ (s : Settings) (gid tail : String), ValidSeg gid →
        tail = "" ∨ tail = "/" ∨ tail = "\n" ∨ tail = "/\n" →
        BucketValidator.parse s ("groups/" ++ gid ++ tail) =
          .ok ⟨.group, none, some gid, "groups/" ++ gid ++ tail⟩)
    ∧ (∀ (s : Settings) (uid tail : String), ValidSeg uid →
        tail = "" ∨ tail = "/" ∨ tail = "\n" ∨ tail = "/\n" →
        BucketValidator.parse s ("users/" ++ uid ++ tail) =
          .ok ⟨.user, none, some uid, "users/" ++ uid ++ tail⟩)
    ∧ (∀ (s : Settings) (tail : String), tail = "" ∨ tail = "/" ∨ tail = "\n" ∨ tail = "/\n" →
        BucketValidator.parse s ("system" ++ tail) =
          .ok ⟨.system, none, none, "system" ++ tail⟩)
    ∧ (∀ (s : Settings) (bucket : String), bucket ≠ "" →
        matchGroupOrg bucket.data = none → matchUserOrg bucket.data = none →
        matchSystemOrg bucket.data = none →
        matchGroupSimple bucket.data = none →
        matchUserSimple bucket.data = none →
        matchSystemSimple bucket.data = false →
        (s.bucketValidationStrict = true →
          BucketValidator.parse s bucket = .error invalidFormatError)
        ∧ (s.bucketValidationStrict = false →
          BucketValidator.parse s bucket =
            .ok ⟨.system, some "default-org", none, bucket⟩))
    ∧ (∀ s : Settings, BucketValidator.parse s "" = .error emptyBucketError) := by
  refine ⟨parse_group_org, parse_user_org, parse_system_org,
    parse_group_simple, parse_user_simple, parse_system_simple,
    ?_, fun _ => rfl⟩
  intro s bucket hne h1 h2 h3 h4 h5 h6
  constructor <;> intro hstrict <;>
    (unfold BucketValidator.parse
     rw [if_neg hne, h1, h2, h3, h4, h5, h6, hstrict]
     rfl)

/-- Witness for C6 at concrete inputs: a group bucket with org prefix and
trailing slash, a group bucket with a trailing newline (accepted by the
Python `$` anchor), and a non-matching string in strict mode. -/
theorem C6_six_shapes_strict_lenient_witness :
    BucketValidator.parse defaultSettings
        ("org-" ++ "abc" ++ "/groups/" ++ "g1" ++ "/") =
      .ok ⟨.group, some "abc", some "g1",
        "org-" ++ "abc" ++ "/groups/" ++ "g1" ++ "/"⟩
    ∧ BucketValidator.parse defaultSettings ("groups/" ++ "x" ++ "\n") =
      .ok ⟨.group, none, some "x", "groups/" ++ "x" ++ "\n"⟩
    ∧ (defaultSettings.bucketValidationStrict = true →
        BucketValidator.parse defaultSettings "bogus!" =
          .error invalidFormatError) := by
  refine ⟨?_, ?_, ?_⟩
  · exact C6_six_shapes_strict_lenient.1 defaultSettings "abc" "g1" "/"
      (by decide) (by decide) (Or.inr (Or.inl rfl))
  · exact C6_six_shapes_strict_lenient.2.2.2.1 defaultSettings "x" "\n"
      (by decide) (Or.inr (Or.inr (Or.inl rfl)))
  · exact (C6_six_shapes_strict_lenient.2.2.2.2.2.2.1 defaultSettings
      "bogus!" (by decide) rfl rfl rfl rfl rfl rfl).1

/-! ## Result-discipline lemmas for the orchestrator -/

theorem parse_error_400 (s : Settings) (bucket : String) (e : HTTPException)
    (h : BucketValidator.parse s bucket = .error e) : e.statusCode = 400 := by
  unfold BucketValidator.parse at h
  repeat' split at h
  all_goals
    first
      | exact Except.noConfusion h
      | (cases h; rfl)

theorem checkPermission_error (o : HttpOutcome) (e : HTTPException)
    (h : checkPermission o = .error e) :
    e.statusCode = 503 ∧
      (e.detail = "Authorization service unavailable"
        ∨ e.detail = "Authorization service timeout"
        ∨ e.detail = "Authorization service unreachable") := by
  unfold checkPermission at h
  split at h
  · split at h
    · exact Except.noConfusion h
    · split at h
      · exact Except.noConfusion h
      · cases h
        exact ⟨rfl, Or.inl rfl⟩
  · cases h
    exact ⟨rfl, Or.inr (Or.inl rfl)⟩
  · cases h
    exact ⟨rfl, Or.inr (Or.inr rfl)⟩

theorem cbExecute_error (s : Settings) (now : Nat)
    (call : Except HTTPException Bool) (db : RedisDb) (e : PyErr)
    (h : (cbExecute s now call db).1 = .error e) :
    e = .http ⟨503, "Authorization service temporarily unavailable"⟩
    ∨ ∃ ex, call = .error ex ∧ e = .http ex := by
  unfold cbExecute at h
  split at h
  · cases h
    exact Or.inl rfl
  · split at h
    · exact Except.noConfusion h
    · next ex =>
      split at h <;> (cases h; exact Or.inr ⟨ex, rfl, rfl⟩)

theorem cacheGet_dbGet (s : Settings) (db : RedisDb) (o u p : String) :
    cacheGet s (dbGet db) o u p = .ok none
    ∨ ∃ b, cacheGet s (dbGet db) o u p = .ok (some b) := by
  unfold cacheGet dbGet
  by_cases hen : s.authCacheEnabled
  · simp only [hen, Bool.not_true, Bool.false_eq_true, if_false]
    cases hkv : db.kv (makeKey o u p) with
    | none => exact Or.inl rfl
    | some entry => exact Or.inr ⟨entry.value = "1", rfl⟩
  · simp [hen]

theorem cacheSet_dbSetex_ok (s : Settings) (db : RedisDb) (o u p : String)
    (a : Bool) :
    ∃ db2, cacheSet s (dbSetex db) db o u p a = .ok db2 := by
  unfold cacheSet dbSetex
  by_cases hen : s.authCacheEnabled
  · simp [hen]
  · simp [hen]

theorem checkGroupPermission_cases (s : Settings) (now : Nat)
    (authority : HttpOutcome) (ctx : AuthContext) (permission : String)
    (db : RedisDb) :
    (checkGroupPermission s now authority ctx permission db).1 = .ok true
    ∨ (∃ m, (checkGroupPermission s now authority ctx permission db).1 =
        .error (.redisErr m))
    ∨ (∃ ex, (checkGroupPermission s now authority ctx permission db).1 =
        .error (.http ex)
        ∧ ((ex.statusCode = 403 ∧ (ex.detail = "Permission denied (cached)"
              ∨ ex.detail = "Permission denied"))
          ∨ (ex.statusCode = 503
              ∧ (ex.detail = "Authorization service temporarily unavailable"
                ∨ ex.detail = "Authorization service unavailable"
                ∨ ex.detail = "Authorization service timeout"
                ∨ ex.detail = "Authorization service unreachable")))) := by
  unfold checkGroupPermission
  rcases cacheGet_dbGet s db (optStr ctx.orgId) ctx.userId permission with
    hc | ⟨b, hc⟩
  · rw [hc]
    dsimp only
    rcases hcb : cbExecute s now (checkPermission authority) db with ⟨res, db1⟩
    cases res with
    | error e =>
      have he := cbExecute_error s now (checkPermission authority) db e
        (by rw [hcb])
      dsimp only
      rcases he with he | ⟨ex, hcall, he⟩
      · subst he
        exact Or.inr (Or.inr ⟨_, rfl, Or.inr ⟨rfl, Or.inl rfl⟩⟩)
      · subst he
        obtain ⟨h503, hdet⟩ := checkPermission_error authority ex hcall
        exact Or.inr (Or.inr ⟨ex, rfl, Or.inr ⟨h503,
          Or.inr hdet⟩⟩)
    | ok allowed =>
      dsimp only
      obtain ⟨db2, hset⟩ :=
        cacheSet_dbSetex_ok s db1 (optStr ctx.orgId) ctx.userId permission
          allowed
      rw [hset]
      dsimp only
      cases allowed with
      | true => exact Or.inl rfl
      | false => exact Or.inr (Or.inr ⟨_, rfl, Or.inl ⟨rfl, Or.inr rfl⟩⟩)
  · rw [hc]
    dsimp only
    cases b with
    | true => exact Or.inl rfl
    | false => exact Or.inr (Or.inr ⟨_, rfl, Or.inl ⟨rfl, Or.inl rfl⟩⟩)

theorem checkAccess_cases (s : Settings) (now : Nat) (authority : HttpOutcome)
    (ctx : AuthContext) (permission bucket : String) (db : RedisDb) :
    (checkAccess s now authority ctx permission bucket db).1 = .ok true
    ∨ (∃ m, (checkAccess s now authority ctx permission bucket db).1 =
        .error (.redisErr m))
    ∨ (∃ ex, (checkAccess s now authority ctx permission bucket db).1 =
        .error (.http ex)
        ∧ (ex.statusCode = 400
          ∨ (ex.statusCode = 403 ∧ (ex.detail = "Organization ID mismatch"
              ∨ ex.detail = "Cannot access another user's bucket"
              ∨ ex.detail = "Permission denied (cached)"
              ∨ ex.detail = "Permission denied"))
          ∨ (ex.statusCode = 503
              ∧ (ex.detail = "Authorization service temporarily unavailable"
                ∨ ex.detail = "Authorization service unavailable"
                ∨ ex.detail = "Authorization service timeout"
                ∨ ex.detail = "Authorization service unreachable")))) := by
  unfold checkAccess
  rcases hp : BucketValidator.parse s bucket with e | info
  · exact Or.inr (Or.inr ⟨e, rfl, Or.inl (parse_error_400 s bucket e hp)⟩)
  · have hafter : ∀ db0 : RedisDb,
        (checkAccessAfterOrg s now authority ctx permission info db0).1 =
          .ok true
        ∨ (∃ m, (checkAccessAfterOrg s now authority ctx permission
            info db0).1 = .error (.redisErr m))
        ∨ (∃ ex, (checkAccessAfterOrg s now authority ctx permission
            info db0).1 = .error (.http ex)
            ∧ (ex.statusCode = 400
              ∨ (ex.statusCode = 403
                  ∧ (ex.detail = "Organization ID mismatch"
                    ∨ ex.detail = "Cannot access another user's bucket"
                    ∨ ex.detail = "Permission denied (cached)"
                    ∨ ex.detail = "Permission denied"))
              ∨ (ex.statusCode = 503
                  ∧ (ex.detail =
                      "Authorization service temporarily unavailable"
                    ∨ ex.detail = "Authorization service unavailable"
                    ∨ ex.detail = "Authorization service timeout"
                    ∨ ex.detail = "Authorization service unreachable")))) := by
      intro db0
      unfold checkAccessAfterOrg
      cases hbt : info.bucketType with
      | user =>
        by_cases hown : info.resourceId = some ctx.userId
        · rw [if_pos hown]
          exact Or.inl rfl
        · rw [if_neg hown]
          exact Or.inr (Or.inr ⟨_, rfl,
            Or.inr (Or.inl ⟨rfl, Or.inr (Or.inl rfl)⟩)⟩)
      | system => exact Or.inl rfl
      | group =>
        rcases checkGroupPermission_cases s now authority ctx
            (buildPermission permission info) db0 with h | ⟨m, h⟩ | ⟨ex, h, hcl⟩
        · exact Or.inl h
        · exact Or.inr (Or.inl ⟨m, h⟩)
        · refine Or.inr (Or.inr ⟨ex, h, ?_⟩)
          rcases hcl with ⟨h403, hdet⟩ | ⟨h503, hdet⟩
          · exact Or.inr (Or.inl ⟨h403, Or.inr (Or.inr hdet)⟩)
          · exact Or.inr (Or.inr ⟨h503, hdet⟩)
    dsimp only
    rcases horgid : info.orgId with _ | bucketOrg
    · cases hco : ctx.orgId with
      | none => exact hafter db
      | some ctxOrg => exact hafter db
    · cases hco : ctx.orgId with
      | none => exact hafter db
      | some ctxOrg =>
        dsimp only
        by_cases hne : bucketOrg ≠ ctxOrg
        · rw [if_pos hne]
          exact Or.inr (Or.inr ⟨_, rfl,
            Or.inr (Or.inl ⟨rfl, Or.inl rfl⟩)⟩)
        · rw [if_neg hne]
          exact hafter db

/-- C10: on every non-raising path `check_access` returns `True` (never
`False`); every raised `HTTPException` is a 400 (bucket validation), a 403
carrying one of the four denial details (org mismatch, not bucket owner,
cached denial, authority denial), or a 503 carrying one of the four
unavailability details (breaker open, unexpected status, timeout,
connection failure), so callers distinguish the outcomes by catch-site,
not by return value. -/
theorem C10_true_or_raise (s : Settings) (now : Nat) (authority : HttpOutcome)
    (ctx : AuthContext) (permission bucket : String) (db : RedisDb) :
    (∀ b, (checkAccess s now authority ctx permission bucket db).1 = .ok b →
      b = true)
    ∧ (∀ ex : HTTPException,
        (checkAccess s now authority ctx permission bucket db).1 =
          .error (.http ex) →
        ex.statusCode = 400
        ∨ (ex.statusCode = 403 ∧ (ex.detail = "Organization ID mismatch"
            ∨ ex.detail = "Cannot access another user's bucket"
            ∨ ex.detail = "Permission denied (cached)"
            ∨ ex.detail = "Permission denied"))
        ∨ (ex.statusCode = 503
            ∧ (ex.detail = "Authorization service temporarily unavailable"
              ∨ ex.detail = "Authorization service unavailable"
              ∨ ex.detail = "Authorization service timeout"
              ∨ ex.detail = "Authorization service unreachable"))) := by
  rcases checkAccess_cases s now authority ctx permission bucket db with
    h | ⟨m, h⟩ | ⟨ex, h, hcl⟩
  · constructor
    · intro b hb
      rw [h] at hb
      exact (Except.ok.inj hb).symm
    · intro ex' hex
      rw [h] at hex
      exact Except.noConfusion hex
  · constructor
    · intro b hb
      rw [h] at hb
      exact Except.noConfusion hb
    · intro ex' hex
      rw [h] at hex
      exact PyErr.noConfusion (Except.error.inj hex)
  · constructor
    · intro b hb
      rw [h] at hb
      exact Except.noConfusion hb
    · intro ex' hex
      rw [h] at hex
      have := PyErr.http.inj (Except.error.inj hex)
      rw [← this]
      exact hcl

/-- Witness for C10 at a concrete input: the org-mismatch denial carries
status 403. -/
theorem C10_true_or_raise_witness :
    (403 : Nat) = 400
    ∨ ((403 : Nat) = 403
        ∧ (("Organization ID mismatch" : String) = "Organization ID mismatch"
          ∨ ("Organization ID mismatch" : String) =
              "Cannot access another user's bucket"
          ∨ ("Organization ID mismatch" : String) = "Permission denied (cached)"
          ∨ ("Organization ID mismatch" : String) = "Permission denied"))
    ∨ ((403 : Nat) = 503
        ∧ (("Organization ID mismatch" : String) =
              "Authorization service temporarily unavailable"
          ∨ ("Organization ID mismatch" : String) =
              "Authorization service unavailable"
          ∨ ("Organization ID mismatch" : String) =
              "Authorization service timeout"
          ∨ ("Organization ID mismatch" : String) =
              "Authorization service unreachable")) :=
  (C10_true_or_raise defaultSettings 0 (.status 200) ⟨"u1", some "zzz", []⟩
    "image:upload" "org-abc/groups/xyz/" emptyDb).2
    ⟨403, "Organization ID mismatch"⟩ rfl

end AuthZ
